import Mathlib

/-!
Shallow embedding of the `creditcard` application (`src/main.rs`) and proofs
about it.  Rust `String` values are modelled as Lean `String`s where only
their textual content matters, and as lists of UTF-8 bytes (`List Nat`)
where the code manipulates byte indices.  The shared
`Arc<Mutex<Vec<String>>>` mailbox is modelled as a `List String` with
`Vec::push` appending at the end and `Vec::pop` removing from the end.
-/

namespace CreditCard

/-! ## UTF-8 byte model of Rust strings -/

/-- UTF-8 encoding of a single character, as a list of byte values.
Mirrors the standard encoding Rust strings use. -/
def utf8Bytes (c : Char) : List Nat :=
  let n := c.toNat
  if n < 0x80 then [n]
  else if n < 0x800 then [0xC0 + n / 0x40, 0x80 + n % 0x40]
  else if n < 0x10000 then
    [0xE0 + n / 0x1000, 0x80 + n / 0x40 % 0x40, 0x80 + n % 0x40]
  else
    [0xF0 + n / 0x40000, 0x80 + n / 0x1000 % 0x40, 0x80 + n / 0x40 % 0x40,
      0x80 + n % 0x40]

/-- The UTF-8 byte sequence of a string, the view `str::len` and byte
slicing operate on in Rust. -/
def strBytes (s : String) : List Nat :=
  s.data.foldr (fun c acc => utf8Bytes c ++ acc) []

/-- A byte starts a character iff it is not a UTF-8 continuation byte;
mirrors `str::is_char_boundary` at interior positions. -/
def startsChar (b : Nat) : Bool :=
  b < 0x80 || 0xC0 ≤ b

/-- The Rust method `str::is_char_boundary` at `i`: true at the ends of the string and at
interior positions whose byte is not a continuation byte. -/
def isCharBoundary (bytes : List Nat) (i : Nat) : Bool :=
  i == 0 || i == bytes.length ||
    (decide (i < bytes.length) && startsChar (bytes.getD i 0))

/-! ## The optimistic mask of the submit handler (main.rs lines 442-449)

```rust
if self.card_number.len() > 4 {
    &self.card_number[self.card_number.len() - 4..]
} else {
    "XXXX"
}
```

`len()` is the byte length and `[.. ]` slices bytes, panicking when
`len - 4` is not a character boundary.  `none` models the panic. -/

/-- The masked form of the card number used in the optimistic message:
last 4 bytes when the byte length exceeds 4 (panic, modelled as `none`,
when the cut is not a character boundary), else the literal `XXXX`. -/
def maskSuffix (bytes : List Nat) : Option (List Nat) :=
  if bytes.length > 4 then
    if isCharBoundary bytes (bytes.length - 4) then
      some (bytes.drop (bytes.length - 4))
    else
      none
  else
    some (strBytes "XXXX")

/-- The optimistic `DisplayMessage` set by the submit handler, at the UTF-8
byte level: `format!("Th-thanks for your card ending in {}! (Sending...)", mask)`. -/
def optimisticMessage (card : String) : Option (List Nat) :=
  match maskSuffix (strBytes card) with
  | some tail =>
      some (strBytes "Th-thanks for your card ending in " ++ tail ++
        strBytes "! (Sending...)")
  | none => none

/-! Character-level reading of the spec sentence, for comparison with the
byte-level code: `charCount` counts characters of a UTF-8 byte string and
`lastKChars` takes the suffix holding the last `k` characters. -/

/-- Number of characters in a UTF-8 byte string (count of non-continuation
bytes). -/
def charCount (bytes : List Nat) : Nat :=
  (bytes.filter startsChar).length

/-- The shortest suffix of a UTF-8 byte string containing at most `k`
complete characters: the last `k` characters when more than
`k` are present. -/
def lastKChars : List Nat → Nat → List Nat
  | [], _ => []
  | b :: rest, k =>
    if charCount (b :: rest) ≤ k then b :: rest else lastKChars rest k

/-- The character-level reading of the optimistic mask, from the spec: last 4
characters when more than 4 characters are present, else `XXXX`. -/
def specMaskChars (bytes : List Nat) : List Nat :=
  if charCount bytes > 4 then lastKChars bytes 4 else strBytes "XXXX"

/-! ## Mailbox (`pending_messages : Arc<Mutex<Vec<String>>>`)

`post` is the producer side, `messages.push(...)` (main.rs line 264), and the
render loop drains with `messages.pop()` (line 279).  `Vec::push` appends
at the end; `Vec::pop` removes and returns the last element, or `None`
when the vector is empty. -/

/-- `Vec::push`: append one element at the end. -/
def vecPush (m : List String) (s : String) : List String :=
  m ++ [s]

/-- `Vec::pop`: remove and return the last element, leaving the vector
unchanged when it is empty. -/
def vecPop (m : List String) : List String × Option String :=
  match m.getLast? with
  | none => (m, none)
  | some x => (m.dropLast, some x)

/-- Post a sequence of messages, in order, onto a mailbox. -/
def postAll (m : List String) (msgs : List String) : List String :=
  msgs.foldl vecPush m

/-- Drain the mailbox `n` times; returns the final mailbox and the drained
messages in the order they were drained. -/
def drainAll : List String → Nat → List String × List String
  | m, 0 => (m, [])
  | m, n + 1 =>
    let p := vecPop m
    let r := drainAll p.1 n
    match p.2 with
    | none => r
    | some x => (r.1, x :: r.2)

/-- The per-frame drain step of the render loop (main.rs lines 277-283):
`if let Some(msg) = messages.pop() { self.message = Some(msg); }`.
Input and output are (pending mailbox, `self.message`). -/
def frameDrain (pending : List String) (message : Option String) :
    List String × Option String :=
  match vecPop pending with
  | (p, some msg) => (p, some msg)
  | (p, none) => (p, message)

/-! ## The form snapshot and its JSON serialization -/

/-- `struct CardInfo` (main.rs lines 15-20). -/
structure CardInfo where
  card_number : String
  expiry_date : String
  security_code : String
  deriving DecidableEq, Repr

/-- The fields of `MyApp` relevant to the verified claims.  `decode_count`
is the decode-count probe from the spec: it counts calls of
`image::load_from_memory`. -/
structure MyApp where
  card_number : String
  expiry_date : String
  security_code : String
  message : Option String
  anime_texture : Option Nat
  image_size : Nat × Nat
  pending_messages : List String
  decode_count : Nat
  deriving DecidableEq, Repr

/-- `MyApp::default` (main.rs lines 32-44), with the decode probe at 0.
The default `image_size` is `egui::vec2(150.0, 200.0)`. -/
def MyApp.defaultState : MyApp :=
  { card_number := ""
    expiry_date := ""
    security_code := ""
    message := none
    anime_texture := none
    image_size := (150, 200)
    pending_messages := []
    decode_count := 0 }

/-- The snapshot taken by the submit handler (main.rs lines 430-434):
each field is cloned from the form state into a fresh `CardInfo`. -/
def snapshotCardInfo (app : MyApp) : CardInfo :=
  { card_number := app.card_number
    expiry_date := app.expiry_date
    security_code := app.security_code }

/-- JSON values, as far as this wire format needs them. -/
inductive Json where
  | str (s : String)
  | obj (fields : List (String × Json))

/-- serde serialization of `CardInfo` (derive(Serialize)): an object with
the three fields in struct declaration order, each a JSON string. -/
def cardInfoToJson (c : CardInfo) : Json :=
  .obj [("card_number", .str c.card_number),
        ("expiry_date", .str c.expiry_date),
        ("security_code", .str c.security_code)]

/-- Look up a field of a JSON object field list by name. -/
def lookupField (fields : List (String × Json)) (k : String) : Option Json :=
  (fields.find? (fun p => p.1 == k)).map Prod.snd

/-! ## Image cache (`load_image`, main.rs lines 47-69) -/

/-- Modelled from the spec: the `resources` module (`src/resources.rs`)
holding `EMBEDDED_IMAGE` is not present under `src/`; per §6 the embedded
asset is a fixed static image decoded to RGBA8 at first use, so the decode
`image::load_from_memory(resources::EMBEDDED_IMAGE)` is modelled as
succeeding deterministically with fixed pixel dimensions. -/
def decodeEmbedded : Option (Nat × Nat) :=
  some (150, 200)

/-- `MyApp::load_image`: when `anime_texture` is `None`, decode the
embedded image, store its dimensions in `image_size` and the uploaded
texture handle in `anime_texture`; otherwise do nothing.  The `egui`
context is modelled as a fresh-handle counter consumed by
`ctx.load_texture`; every decode attempt bumps the probe
`decode_count`. -/
def load_image (app : MyApp) (ctx : Nat) : MyApp × Nat :=
  if app.anime_texture.isSome then (app, ctx)
  else
    match decodeEmbedded with
    | some (w, h) =>
        ({ app with
            image_size := (w, h)
            anime_texture := some ctx
            decode_count := app.decode_count + 1 },
          ctx + 1)
    | none =>
        ({ app with decode_count := app.decode_count + 1 }, ctx)

/-! ## The submission task (`send_card_info`, main.rs lines 233-269) -/

/-- The outcome of the network interaction inside `send_card_info`: the
client build may fail, the send may fail, or a response arrives with a
status code and a best-effort body (`none` models an unreadable body). -/
inductive NetOutcome where
  | buildErr (e : String)
  | sendErr (e : String)
  | resp (status : Nat) (body : Option String)
  deriving DecidableEq, Repr

/-- `StatusCode::is_success`: 2xx. -/
def isSuccessStatus (status : Nat) : Bool :=
  200 ≤ status && status < 300

/-- `http::StatusCode::canonical_reason`: the IANA reason phrase of a
status code (the table registered by the `http` crate; the 418 entry is
omitted here as its reason phrase is not representable in this file). -/
def canonicalReason (c : Nat) : Option String :=
  match c with
  | 100 => some "Continue"
  | 101 => some "Switching Protocols"
  | 102 => some "Processing"
  | 200 => some "OK"
  | 201 => some "Created"
  | 202 => some "Accepted"
  | 203 => some "Non-Authoritative Information"
  | 204 => some "No Content"
  | 205 => some "Reset Content"
  | 206 => some "Partial Content"
  | 207 => some "Multi-Status"
  | 208 => some "Already Reported"
  | 226 => some "IM Used"
  | 300 => some "Multiple Choices"
  | 301 => some "Moved Permanently"
  | 302 => some "Found"
  | 303 => some "See Other"
  | 304 => some "Not Modified"
  | 305 => some "Use Proxy"
  | 307 => some "Temporary Redirect"
  | 308 => some "Permanent Redirect"
  | 400 => some "Bad Request"
  | 401 => some "Unauthorized"
  | 402 => some "Payment Required"
  | 403 => some "Forbidden"
  | 404 => some "Not Found"
  | 405 => some "Method Not Allowed"
  | 406 => some "Not Acceptable"
  | 407 => some "Proxy Authentication Required"
  | 408 => some "Request Timeout"
  | 409 => some "Conflict"
  | 410 => some "Gone"
  | 411 => some "Length Required"
  | 412 => some "Precondition Failed"
  | 413 => some "Payload Too Large"
  | 414 => some "URI Too Long"
  | 415 => some "Unsupported Media Type"
  | 416 => some "Range Not Satisfiable"
  | 417 => some "Expectation Failed"
  | 421 => some "Misdirected Request"
  | 422 => some "Unprocessable Entity"
  | 423 => some "Locked"
  | 424 => some "Failed Dependency"
  | 426 => some "Upgrade Required"
  | 428 => some "Precondition Required"
  | 429 => some "Too Many Requests"
  | 431 => some "Request Header Fields Too Large"
  | 451 => some "Unavailable For Legal Reasons"
  | 500 => some "Internal Server Error"
  | 501 => some "Not Implemented"
  | 502 => some "Bad Gateway"
  | 503 => some "Service Unavailable"
  | 504 => some "Gateway Timeout"
  | 505 => some "HTTP Version Not Supported"
  | 506 => some "Variant Also Negotiates"
  | 507 => some "Insufficient Storage"
  | 508 => some "Loop Detected"
  | 510 => some "Not Extended"
  | 511 => some "Network Authentication Required"
  | _ => none

/-- `Display` of `http::StatusCode` (what `format!("{}", status)` prints):
the numeric code followed by the canonical reason phrase, or
`<unknown status code>` when there is none. -/
def statusDisplay (c : Nat) : String :=
  toString c ++ " " ++ (canonicalReason c).getD "<unknown status code>"

/-- The `result` computed by `send_card_info` (main.rs lines 234-261):
`Ok` carries the success message, `Err` the failure detail. -/
def sendResult (o : NetOutcome) : Except String String :=
  match o with
  | .buildErr e => .error ("Failed to build reqwest client: " ++ e)
  | .sendErr e => .error ("Failed to send request: " ++ e)
  | .resp status body =>
    if isSuccessStatus status then
      .ok "Successfully sent card info!"
    else
      .error ("Failed to send card info: Status " ++ statusDisplay status ++
        " - " ++ body.getD "No response body")

/-- The single string pushed onto the mailbox (main.rs lines 263-267):
the success message as is, or `format!("Error: {}", e)`. -/
def sendMessage (o : NetOutcome) : String :=
  match sendResult o with
  | .ok msg => msg
  | .error e => "Error: " ++ e

/-- Observable effects of one run of `send_card_info`. -/
inductive TaskEvent where
  | post (msg : String)
  | repaint
  deriving DecidableEq, Repr

/-- The effect trace of one run of `send_card_info`: it pushes its one
result message (line 264) and then calls `ctx.request_repaint()`
(line 268). -/
def sendCardInfoTrace (o : NetOutcome) : List TaskEvent :=
  [.post (sendMessage o), .repaint]

/-- The mailbox after one run of `send_card_info` posts into it. -/
def sendCardInfoMailbox (o : NetOutcome) (pending : List String) :
    List String :=
  vecPush pending (sendMessage o)

/-- Whether a task event is a repaint request. -/
def isRepaint : TaskEvent → Bool
  | .repaint => true
  | .post _ => false

/-- The messages posted in an effect trace, in order. -/
def postedMessages (t : List TaskEvent) : List String :=
  t.foldr (fun e acc => match e with | .post m => m :: acc | .repaint => acc) []

/-- Uncurried `load_image`, for iteration. -/
def loadImageStep : MyApp × Nat → MyApp × Nat :=
  fun t => load_image t.1 t.2

/-! ## Helper lemmas -/

theorem postAll_eq_append (m msgs : List String) :
    postAll m msgs = m ++ msgs := by
  induction msgs generalizing m with
  | nil => simp [postAll]
  | cons a rest ih =>
    simp only [postAll, List.foldl_cons] at *
    rw [ih (vecPush m a)]
    simp [vecPush]

theorem vecPop_concat (l : List String) (x : String) :
    vecPop (l ++ [x]) = (l, some x) := by
  simp [vecPop]

theorem drainAll_length (l : List String) :
    drainAll l l.length = ([], l.reverse) := by
  induction l using List.reverseRecOn with
  | nil => simp [drainAll]
  | append_singleton ms a ih =>
    have hlen : (ms ++ [a]).length = ms.length + 1 := by simp
    rw [hlen]
    simp only [drainAll, vecPop_concat, ih]
    simp

/-! ## The claims -/

/-- Claim C1, counterexample.  The claim reads the optimistic mask at the
character level: the card number `ééé` has 3 characters, so the claim
demands the placeholder `XXXX`, but the submit handler (which measures and
slices UTF-8 bytes) produces the last 4 bytes, the two characters `éé`. -/
theorem optimistic_mask_chars_counterexample :
    maskSuffix (strBytes "ééé") = some (strBytes "éé") ∧
    charCount (strBytes "ééé") ≤ 4 ∧
    specMaskChars (strBytes "ééé") = strBytes "XXXX" ∧
    maskSuffix (strBytes "ééé") ≠ some (specMaskChars (strBytes "ééé")) := by
  decide

/-- Claim C1, amended: on submit, the optimistic `DisplayMessage` embeds
exactly the last 4 UTF-8 bytes of `card_number` when its byte length
exceeds 4 and the cut position is a character boundary (otherwise the
handler panics, claim C9), and the fixed placeholder `XXXX` when the byte
length is 4 or fewer. -/
theorem optimistic_mask_amended (card : String) :
    ((strBytes card).length ≤ 4 →
      optimisticMessage card =
        some (strBytes "Th-thanks for your card ending in " ++ strBytes "XXXX" ++
          strBytes "! (Sending...)")) ∧
    (4 < (strBytes card).length →
      isCharBoundary (strBytes card) ((strBytes card).length - 4) = true →
      optimisticMessage card =
        some (strBytes "Th-thanks for your card ending in " ++
          (strBytes card).drop ((strBytes card).length - 4) ++
          strBytes "! (Sending...)")) := by
  constructor
  · intro h
    simp [optimisticMessage, maskSuffix, Nat.not_lt.mpr h, List.append_assoc]
  · intro h hb
    simp [optimisticMessage, maskSuffix, h, hb, List.append_assoc]

/-- Witness for the amended claim C1 at a 16-digit card number. -/
theorem optimistic_mask_amended_witness :
    optimisticMessage "4111111111111111" =
      some (strBytes "Th-thanks for your card ending in " ++
        (strBytes "4111111111111111").drop
          ((strBytes "4111111111111111").length - 4) ++
        strBytes "! (Sending...)") :=
  (optimistic_mask_amended "4111111111111111").2 (by decide) (by decide)

/-- Claim C2, counterexample.  `format!` renders a `reqwest::StatusCode`
with its canonical reason phrase, so HTTP 500 with body `server error`
posts `... Status 500 Internal Server Error - server error`, not the
claimed `... Status 500 - server error`. -/
theorem status_display_counterexample :
    sendMessage (.resp 500 (some "server error")) =
      "Error: Failed to send card info: Status 500 Internal Server Error - server error" ∧
    sendMessage (.resp 500 (some "server error")) ≠
      "Error: Failed to send card info: Status 500 - server error" := by
  constructor
  · decide
  · decide

/-- Claim C2, amended: on a non-2xx response the task posts exactly
`Error: Failed to send card info: Status <code> <reason> - <body>`, where
`<code> <reason>` is the Display form of the status code, and
`No response body` is substituted when the body is unreadable. -/
theorem non_success_status_message (status : Nat) (body : Option String)
    (h : isSuccessStatus status = false) :
    sendMessage (.resp status body) =
      "Error: Failed to send card info: Status " ++ statusDisplay status ++
        " - " ++ body.getD "No response body" := by
  have hsplit : ("Error: " : String) ++ "Failed to send card info: Status " =
      "Error: Failed to send card info: Status " := by decide
  simp only [sendMessage, sendResult, h, Bool.false_eq_true, if_false]
  rw [← String.append_assoc, ← String.append_assoc, ← String.append_assoc,
    hsplit]

/-- Witness for the amended claim C2 at status 500, readable body. -/
theorem non_success_status_message_witness :
    sendMessage (.resp 500 (some "server error")) =
      "Error: Failed to send card info: Status " ++ statusDisplay 500 ++
        " - " ++ (some "server error").getD "No response body" :=
  non_success_status_message 500 (some "server error") (by decide)

/-- Claim C3: posting N messages into an empty mailbox and draining N
times returns exactly the multiset of the posted strings, each once, and
one further drain returns nothing. -/
theorem mailbox_post_drain_roundtrip (msgs : List String) :
    ((drainAll (postAll [] msgs) msgs.length).2 : Multiset String) =
      (msgs : Multiset String) ∧
    (vecPop (drainAll (postAll [] msgs) msgs.length).1).2 = none := by
  rw [postAll_eq_append, List.nil_append, drainAll_length]
  constructor
  · exact Multiset.coe_eq_coe.mpr (List.reverse_perm msgs)
  · simp [vecPop]

/-- Claim C4: once the texture is absent, one call of `load_image` decodes
and caches; any further calls change nothing, so k calls equal one call
and the decode count ends at exactly one more than it started. -/
theorem load_image_idempotent (app : MyApp) (ctx k : Nat)
    (h : app.anime_texture = none) (hk : 1 ≤ k) :
    loadImageStep^[k] (app, ctx) = loadImageStep (app, ctx) ∧
    (loadImageStep^[k] (app, ctx)).1.decode_count = app.decode_count + 1 := by
  obtain ⟨n, rfl⟩ : ∃ n, k = n + 1 :=
    ⟨k - 1, (Nat.succ_pred_eq_of_pos hk).symm⟩
  have h1 : loadImageStep (app, ctx) =
      ({ app with
          image_size := (150, 200)
          anime_texture := some ctx
          decode_count := app.decode_count + 1 }, ctx + 1) := by
    simp [loadImageStep, load_image, h, decodeEmbedded]
  have hfix : loadImageStep (loadImageStep (app, ctx)) =
      loadImageStep (app, ctx) := by
    rw [h1]
    simp [loadImageStep, load_image]
  rw [Function.iterate_succ_apply, Function.iterate_fixed hfix n]
  exact ⟨rfl, by rw [h1]⟩

/-- Witness for claim C4: three calls from the default state equal one
call and leave the decode count at 1. -/
theorem load_image_idempotent_witness :
    loadImageStep^[3] (MyApp.defaultState, 0) =
      loadImageStep (MyApp.defaultState, 0) ∧
    (loadImageStep^[3] (MyApp.defaultState, 0)).1.decode_count =
      MyApp.defaultState.decode_count + 1 :=
  load_image_idempotent MyApp.defaultState 0 3 rfl (by decide)

/-- Claim C5: every run of `send_card_info` posts exactly one message:
the fixed success string on any 2xx status, a message starting
`Error: Failed to send request: ` on transport failure, and a message
starting `Error: Failed to build reqwest client: ` on client-construction
failure.  The model is a total function, so no error propagates. -/
theorem submission_task_posts_exactly_one (o : NetOutcome) :
    postedMessages (sendCardInfoTrace o) = [sendMessage o] ∧
    (∀ s b, o = .resp s b → isSuccessStatus s = true →
      sendMessage o = "Successfully sent card info!") ∧
    (∀ e, o = .sendErr e →
      sendMessage o = "Error: Failed to send request: " ++ e) ∧
    (∀ e, o = .buildErr e →
      sendMessage o = "Error: Failed to build reqwest client: " ++ e) := by
  refine ⟨rfl, ?_, ?_, ?_⟩
  · rintro s b rfl h
    simp [sendMessage, sendResult, h]
  · rintro e rfl
    have hsplit : ("Error: " : String) ++ "Failed to send request: " =
        "Error: Failed to send request: " := by decide
    show "Error: " ++ ("Failed to send request: " ++ e) = _
    rw [← String.append_assoc, hsplit]
  · rintro e rfl
    have hsplit : ("Error: " : String) ++ "Failed to build reqwest client: " =
        "Error: Failed to build reqwest client: " := by decide
    show "Error: " ++ ("Failed to build reqwest client: " ++ e) = _
    rw [← String.append_assoc, hsplit]

/-- Witness for claim C5 at a transport failure. -/
theorem submission_task_posts_exactly_one_witness :
    sendMessage (.sendErr "connection refused") =
      "Error: Failed to send request: " ++ "connection refused" :=
  (submission_task_posts_exactly_one
    (.sendErr "connection refused")).2.2.1 "connection refused" rfl

/-- Claim C6: in every run of the submission task the trace holds exactly
one repaint request, and it comes after the post of the result message. -/
theorem repaint_once_after_post (o : NetOutcome) :
    ((sendCardInfoTrace o).filter isRepaint).length = 1 ∧
    ∃ i j : Nat, i < j ∧
      (sendCardInfoTrace o)[i]? = some (TaskEvent.post (sendMessage o)) ∧
      (sendCardInfoTrace o)[j]? = some TaskEvent.repaint := by
  refine ⟨rfl, 0, 1, Nat.zero_lt_one, ?_, ?_⟩ <;> rfl

/-- Claim C7: the per-frame drain removes at most one mailbox entry; when
the mailbox is non-empty the display message is overwritten with the
drained entry, and when it is empty both mailbox and display message are
unchanged. -/
theorem frame_drain_step (p : List String) (msg : Option String) :
    (frameDrain p msg).1 = p.dropLast ∧
    p.length - (frameDrain p msg).1.length ≤ 1 ∧
    (p ≠ [] → (frameDrain p msg).2 = p.getLast?) ∧
    (p = [] → frameDrain p msg = (p, msg)) := by
  induction p using List.reverseRecOn with
  | nil => simp [frameDrain, vecPop]
  | append_singleton ms a _ =>
    refine ⟨?_, ?_, ?_, ?_⟩ <;> simp [frameDrain, vecPop]

/-- Witness for claim C7 on a two-entry mailbox and on an empty one. -/
theorem frame_drain_step_witness :
    (frameDrain ["a", "b"] (some "old")).2 = some "b" ∧
    frameDrain [] (some "old") = ([], some "old") :=
  ⟨((frame_drain_step ["a", "b"] (some "old")).2.2.1 (by decide)).trans
      (by decide),
    (frame_drain_step [] (some "old")).2.2.2 rfl⟩

/-- Claim C8: the snapshot taken at submit serializes to a JSON object
with exactly the three string fields `card_number`, `expiry_date` and
`security_code`, holding the form fields at snapshot time. -/
theorem request_body_three_fields (app : MyApp) :
    ∃ fields, cardInfoToJson (snapshotCardInfo app) = .obj fields ∧
      fields.map Prod.fst = ["card_number", "expiry_date", "security_code"] ∧
      (∀ p ∈ fields, ∃ v, p.2 = Json.str v) ∧
      lookupField fields "card_number" = some (.str app.card_number) ∧
      lookupField fields "expiry_date" = some (.str app.expiry_date) ∧
      lookupField fields "security_code" = some (.str app.security_code) := by
  refine ⟨_, rfl, rfl, ?_, ?_, ?_, ?_⟩
  · rintro p hp
    simp [snapshotCardInfo, cardInfoToJson] at hp
    rcases hp with h | h | h <;> exact ⟨_, by rw [h]⟩
  all_goals simp [lookupField, snapshotCardInfo, cardInfoToJson, List.find?]

/-- Claim C9: the mask slices `card_number` by UTF-8 bytes: for the
two-character input of euro signs the byte length is 6 but position 2 is
not a character boundary, so the slice panics (modelled as `none`) and the
submit handler is not total over all UTF-8 contents. -/
theorem mask_panics_on_multibyte :
    maskSuffix (strBytes "€€") = none ∧ (strBytes "€€").length > 4 := by
  decide

/-- Claim C10: the mailbox drains LIFO: draining right after a post
returns the most recently posted message, and the display message is set
to it. -/
theorem mailbox_drain_lifo (p : List String) (a : String)
    (msg : Option String) :
    frameDrain (vecPush p a) msg = (p, some a) := by
  simp [frameDrain, vecPush, vecPop]

end CreditCard
